import Mathlib

/-!
Verification of the context-assembly module of nanobot
(`nanobot/agent/context.py`): a shallow embedding of its data model and
functions, followed by theorems settling the specification's claims.

Everything the Python code reads from the outside world (filesystem,
MIME guesser, clock, platform, Memory and Skills collaborators) is made
an explicit input, so every function here is pure and executable.
-/

/-- A content block of a multimodal user message: either an inline image
block (`type: image_url` with a data URI) or a text block (`type: text`). -/
inductive ContentBlock where
  | image (url : String)
  | text (t : String)
deriving DecidableEq

/-- A message `content` value: Python's `str | list[dict]` union. -/
inductive UserContent where
  | str (s : String)
  | blocks (bs : List ContentBlock)
deriving DecidableEq

/-- A chat message dict. Optional dict keys are `Option` fields: `none`
means the key is absent from the dict. -/
structure Message where
  role : String
  content : UserContent
  tool_calls : Option (List String)
  reasoning_content : Option String
  tool_call_id : Option String
  name : Option String
deriving DecidableEq

/-- Python truthiness of an optional string: `None` and `""` are falsy. -/
def pyTruthyStr : Option String → Bool
  | none => false
  | some s => !s.isEmpty

/-- Python truthiness of an optional list: `None` and `[]` are falsy. -/
def pyTruthyList {α : Type} : Option (List α) → Bool
  | none => false
  | some l => !l.isEmpty

/-- Python `x or y` for an optional string `x` and a string default `y`. -/
def pyStrOr (x : Option String) (y : String) : String :=
  if pyTruthyStr x then x.getD "" else y

/-- `add_assistant_message`: append an assistant message; `content or ""`
is its content, `tool_calls` and `reasoning_content` keys are set only
when the arguments are truthy. -/
def add_assistant_message (messages : List Message) (content : Option String)
    (tool_calls : Option (List String)) (reasoning_content : Option String) :
    List Message :=
  let msg : Message :=
    { role := "assistant", content := UserContent.str (pyStrOr content ""),
      tool_calls := none, reasoning_content := none, tool_call_id := none,
      name := none }
  let msg := if pyTruthyList tool_calls then { msg with tool_calls := tool_calls } else msg
  let msg := if pyTruthyStr reasoning_content then { msg with reasoning_content := reasoning_content } else msg
  messages ++ [msg]

/-- `add_tool_result`: append a tool message carrying all four fields. -/
def add_tool_result (messages : List Message) (tool_call_id : String)
    (tool_name : String) (result : String) : List Message :=
  messages ++ [{ role := "tool", content := UserContent.str result,
                 tool_calls := none, reasoning_content := none,
                 tool_call_id := some tool_call_id, name := some tool_name }]

/-- The filesystem and MIME facts `_build_user_content` consults:
`isFile p` models `Path(p).is_file()`, `readBytes p` models
`Path(p).read_bytes()` as a list of byte values, and `guessMime p` models
`mimetypes.guess_type(p)[0]` (`none` when no type can be guessed). -/
structure FileSystem where
  isFile : String → Bool
  readBytes : String → List Nat
  guessMime : String → Option String

/-- Whether the first char list starts the second. -/
def leadsAux : List Char → List Char → Bool
  | [], _ => true
  | _ :: _, [] => false
  | a :: as, b :: bs => a == b && leadsAux as bs

/-- Whether `pat` occurs as a contiguous run somewhere in the char list. -/
def containsAux (pat : List Char) : List Char → Bool
  | [] => pat.isEmpty
  | c :: rest => leadsAux pat (c :: rest) || containsAux pat rest

/-- `s.startswith(pat)`. -/
def strStarts (s pat : String) : Bool := leadsAux pat.toList s.toList

/-- Substring test used to state properties about rendered prompts. -/
def strContains (s pat : String) : Bool :=
  containsAux pat.toList s.toList

/-- The base64 alphabet used by `base64.b64encode`. -/
def b64Table : List Char :=
  "ABCDEFGHIJKLMNOPQRSTUVWXYZabcdefghijklmnopqrstuvwxyz0123456789+/".toList

/-- The base64 digit for a sextet value. -/
def b64Char (n : Nat) : Char := b64Table.getD n 'A'

/-- Standard base64 of a byte list: models `base64.b64encode(...).decode()`. -/
def b64encode : List Nat → String
  | [] => ""
  | [a] => String.mk [b64Char (a / 4), b64Char (a % 4 * 16), '=', '=']
  | [a, b] => String.mk [b64Char (a / 4), b64Char (a % 4 * 16 + b / 16), b64Char (b % 16 * 4), '=']
  | a :: b :: c :: rest =>
      String.mk [b64Char (a / 4), b64Char (a % 4 * 16 + b / 16),
                 b64Char (b % 16 * 4 + c / 64), b64Char (c % 64)]
        ++ b64encode rest

/-- One iteration of the loop in `_build_user_content`: the image block
built for `path`, or `none` when the loop hits `continue` (the path is no
regular file, its MIME type cannot be guessed — `not mime` — or the
guessed type does not start with `image/`). -/
def encodePath (fs : FileSystem) (path : String) : Option ContentBlock :=
  match fs.guessMime path with
  | none => none
  | some mime =>
      if fs.isFile path && strStarts mime "image/" then
        some (ContentBlock.image ("data:" ++ mime ++ ";base64," ++ b64encode (fs.readBytes path)))
      else none

/-- Whether a media path survives the filtering in `_build_user_content`. -/
def survives (fs : FileSystem) (path : String) : Bool :=
  fs.isFile path && strStarts ((fs.guessMime path).getD "") "image/"

/-- The image block built for a surviving path. -/
def imageBlock (fs : FileSystem) (path : String) : ContentBlock :=
  ContentBlock.image ("data:" ++ (fs.guessMime path).getD "" ++ ";base64,"
    ++ b64encode (fs.readBytes path))

/-- `_build_user_content`: plain text, or image blocks plus one trailing
text block when at least one media path survives filtering. -/
def _build_user_content (fs : FileSystem) (text : String)
    (media : Option (List String)) : UserContent :=
  match media with
  | none => UserContent.str text
  | some paths =>
      if paths.isEmpty then UserContent.str text
      else
        let images := paths.filterMap (encodePath fs)
        if images.isEmpty then UserContent.str text
        else UserContent.blocks (images ++ [ContentBlock.text text])

/-- An element of `skills.list_skills()` or of the `skill_names` argument,
as consumed by the compact branch of `build_system_prompt`: a plain string,
or a dict of which only `s["name"]` is read. -/
inductive SkillItem where
  | str (s : String)
  | dict (skillName : String)
deriving DecidableEq

/-- `s["name"] if isinstance(s, dict) else s`. -/
def SkillItem.getName : SkillItem → String
  | .str s => s
  | .dict n => n

/-- Python `sep.join(parts)`. -/
def joinSep (sep : String) : List String → String
  | [] => ""
  | [p] => p
  | p :: q :: rest => p ++ sep ++ joinSep sep (q :: rest)

/-- Lexicographic (code-point) comparison of char lists, the order Python
`sorted` uses on strings. -/
def charListLe : List Char → List Char → Bool
  | [], _ => true
  | _ :: _, [] => false
  | a :: as, b :: bs => if a = b then charListLe as bs else decide (a < b)

/-- Lexicographic comparison of strings. -/
def strLe (a b : String) : Bool := charListLe a.toList b.toList

/-- `strLe` as a relation, for use with `List.insertionSort`. -/
def strLeRel (a b : String) : Prop := strLe a b = true

instance : DecidableRel strLeRel := fun a b =>
  inferInstanceAs (Decidable (strLe a b = true))

/-- Python `sorted(set(l))` for strings: the lexicographically sorted
enumeration of the distinct elements of `l`. -/
def sortedDedup (l : List String) : List String :=
  List.insertionSort strLeRel l.dedup

/-- The `ContextBuilder` object together with everything a build reads
from the outside world. `workspace` is `str(workspace.expanduser().resolve())`,
the resolved absolute workspace path, and `no_xml_skills` the construction
flag. `now` is the formatted `datetime.now()` reading, `tz` the
`time.strftime("%Z")` reading (possibly empty), `system`, `machine` and
`pythonVersion` the `platform` readings. `memoryContext` stands for
`memory.get_memory_context()`, `listSkills` for `skills.list_skills()`,
`alwaysSkills` for `skills.get_always_skills()`, `loadSkillsForContext`
for `skills.load_skills_for_context`, `skillsSummary` for
`skills.build_skills_summary()`. `bootstrap f` is the UTF-8 text of
`<workspace>/<f>` when that file exists, else `none`. -/
structure ContextBuilder where
  workspace : String
  no_xml_skills : Bool
  now : String
  tz : String
  system : String
  machine : String
  pythonVersion : String
  memoryContext : String
  listSkills : List SkillItem
  alwaysSkills : List String
  loadSkillsForContext : List String → String
  skillsSummary : String
  bootstrap : String → Option String

/-- `_get_identity`: the fixed-shape identity section. -/
def _get_identity (cb : ContextBuilder) : String :=
  let tz := if cb.tz.isEmpty then "UTC" else cb.tz
  let workspace_path := cb.workspace
  let runtime := (if cb.system = "Darwin" then "macOS" else cb.system) ++ " "
    ++ cb.machine ++ ", Python " ++ cb.pythonVersion
  "#\n\n## Current Time\n" ++ cb.now ++ " (" ++ tz ++ ")\n\n## Runtime\n" ++ runtime
    ++ "\n\n## Workspace\nYour workspace is at: " ++ workspace_path
    ++ "\n- Long-term memory: " ++ workspace_path ++ "/memory/MEMORY.md"
    ++ "\n- History log: " ++ workspace_path ++ "/memory/HISTORY.md (grep-searchable)"
    ++ "\n- Custom skills: " ++ workspace_path ++ "/skills/\x7bskill-name\x7d/SKILL.md"
    ++ "\nWhen remembering something important, write to " ++ workspace_path ++ "/memory/MEMORY.md"
    ++ "\nTo recall past events, grep " ++ workspace_path ++ "/memory/HISTORY.md"

/-- The fixed bootstrap filename list `BOOTSTRAP_FILES`. -/
def BOOTSTRAP_FILES : List String := ["AGENTS.md", "SOUL.md", "USER.md"]

/-- `_load_bootstrap_files`: one `## <filename>` section per existing
bootstrap file, in the fixed order, joined with blank lines; `""` when
none exists. -/
def _load_bootstrap_files (cb : ContextBuilder) : String :=
  let parts := BOOTSTRAP_FILES.filterMap (fun filename =>
    (cb.bootstrap filename).map (fun content => "## " ++ filename ++ "\n\n" ++ content))
  if parts.isEmpty then "" else joinSep "\n\n" parts

/-- The list the compact branch iterates over:
`skill_names or self.skills.list_skills()`. -/
def skillsListOf (cb : ContextBuilder) (skill_names : Option (List String)) :
    List SkillItem :=
  match skill_names with
  | some l => if l.isEmpty then cb.listSkills else l.map SkillItem.str
  | none => cb.listSkills

/-- `names = sorted(set(...))` of the compact branch. -/
def compactNames (cb : ContextBuilder) (skill_names : Option (List String)) :
    List String :=
  sortedDedup ((skillsListOf cb skill_names).map SkillItem.getName)

/-- The parts the compact (`no_xml_skills`) branch appends: one names part,
then one `Load details` part per name. -/
def compactSkillsParts (cb : ContextBuilder) (skill_names : Option (List String)) :
    List String :=
  let names := compactNames cb skill_names
  if names.isEmpty then []
  else
    ("# Skills\n\nAvailable skills: " ++ joinSep ", " names ++ "\n")
      :: names.map (fun skill_name =>
        "Load details with read_file: " ++ cb.workspace ++ "/skills/" ++ skill_name ++ "/SKILL.md\n")

/-- The fixed text around the skills summary in progressive mode (the
triple-quoted literal of the source, indentation included). -/
def skillsSummaryHeader : String :=
  "# Skills\n    \n    The following skills extend your capabilities. To use a skill, read its SKILL.md file using the read_file tool.\n    Skills with available=\"false\" need dependencies installed first - you can try installing them with apt/brew.\n    \n    "

/-- The parts the progressive branch appends. -/
def progressiveSkillsParts (cb : ContextBuilder) : List String :=
  (if !cb.alwaysSkills.isEmpty && !(cb.loadSkillsForContext cb.alwaysSkills).isEmpty then
     ["# Active Skills\n\n" ++ cb.loadSkillsForContext cb.alwaysSkills]
   else [])
  ++ (if !cb.skillsSummary.isEmpty then [skillsSummaryHeader ++ cb.skillsSummary] else [])

/-- The bootstrap part of the prompt, when non-empty. -/
def bootstrapParts (cb : ContextBuilder) : List String :=
  if (_load_bootstrap_files cb).isEmpty then [] else [_load_bootstrap_files cb]

/-- The memory part of the prompt, when non-empty. -/
def memoryParts (cb : ContextBuilder) : List String :=
  if cb.memoryContext.isEmpty then [] else ["# Memory\n\n" ++ cb.memoryContext]

/-- The skill parts, by disclosure mode. -/
def skillsParts (cb : ContextBuilder) (skill_names : Option (List String)) :
    List String :=
  if cb.no_xml_skills then compactSkillsParts cb skill_names
  else progressiveSkillsParts cb

/-- The `parts` list `build_system_prompt` accumulates. -/
def buildParts (cb : ContextBuilder) (skill_names : Option (List String)) :
    List String :=
  [_get_identity cb] ++ bootstrapParts cb ++ memoryParts cb ++ skillsParts cb skill_names

/-- `build_system_prompt`: the parts joined with the section separator. -/
def build_system_prompt (cb : ContextBuilder) (skill_names : Option (List String)) :
    String :=
  joinSep "\n\n---\n\n" (buildParts cb skill_names)

/-- The text of the system message `build_messages` emits: the built prompt
plus, when `channel and chat_id` is truthy, the session footer. -/
def sessionPrompt (cb : ContextBuilder) (skill_names : Option (List String))
    (channel chat_id : Option String) : String :=
  let system_prompt := build_system_prompt cb skill_names
  if pyTruthyStr channel && pyTruthyStr chat_id then
    system_prompt ++ "\n\n## Current Session\nChannel: " ++ channel.getD ""
      ++ "\nChat ID: " ++ chat_id.getD ""
  else system_prompt

/-- The system message dict of `build_messages`. -/
def systemMessage (text : String) : Message :=
  { role := "system", content := UserContent.str text, tool_calls := none,
    reasoning_content := none, tool_call_id := none, name := none }

/-- The user message dict of `build_messages`. -/
def userMessage (content : UserContent) : Message :=
  { role := "user", content := content, tool_calls := none,
    reasoning_content := none, tool_call_id := none, name := none }

/-- `build_messages`: system prompt message, then the history, then the
current user message. -/
def build_messages (cb : ContextBuilder) (fs : FileSystem) (history : List Message)
    (current_message : String) (skill_names : Option (List String))
    (media : Option (List String)) (channel chat_id : Option String) :
    List Message :=
  let messages : List Message := []
  let messages := messages ++ [systemMessage (sessionPrompt cb skill_names channel chat_id)]
  let messages := messages ++ history
  let messages := messages ++ [userMessage (_build_user_content fs current_message media)]
  messages


/-! ### Concrete fixtures used by counterexamples and witnesses -/

/-- A workspace with none of the bootstrap files. -/
def noBootstrap : String → Option String := fun _ => none

/-- A workspace whose only file is outside the bootstrap list. -/
def altBootstrap : String → Option String :=
  fun f => if f = "OTHER.md" then some "extra" else none

/-- A skills collaborator that renders nothing. -/
def noLoad : List String → String := fun _ => ""

/-- A compact-mode builder with empty collaborators. -/
def envCompact : ContextBuilder :=
  { workspace := "/ws", no_xml_skills := true, now := "N", tz := "T",
    system := "Linux", machine := "x", pythonVersion := "3",
    memoryContext := "", listSkills := [], alwaysSkills := [],
    loadSkillsForContext := noLoad, skillsSummary := "",
    bootstrap := noBootstrap }

/-- A progressive-mode builder with empty collaborators. -/
def envProg : ContextBuilder :=
  { workspace := "/ws", no_xml_skills := false, now := "A", tz := "",
    system := "Darwin", machine := "arm64", pythonVersion := "3.12",
    memoryContext := "", listSkills := [], alwaysSkills := [],
    loadSkillsForContext := noLoad, skillsSummary := "",
    bootstrap := noBootstrap }

/-- `envProg` observed at a later clock reading; all other state equal. -/
def envProg2 : ContextBuilder :=
  { workspace := "/ws", no_xml_skills := false, now := "B", tz := "",
    system := "Darwin", machine := "arm64", pythonVersion := "3.12",
    memoryContext := "", listSkills := [], alwaysSkills := [],
    loadSkillsForContext := noLoad, skillsSummary := "",
    bootstrap := noBootstrap }

/-- `envProg` with a workspace file outside the bootstrap list. -/
def envProgB : ContextBuilder :=
  { workspace := "/ws", no_xml_skills := false, now := "A", tz := "",
    system := "Darwin", machine := "arm64", pythonVersion := "3.12",
    memoryContext := "", listSkills := [], alwaysSkills := [],
    loadSkillsForContext := noLoad, skillsSummary := "",
    bootstrap := altBootstrap }

/-- A filesystem with one PNG, one PDF, one unreadable-but-guessable path
and nothing else. -/
def fsW : FileSystem :=
  { isFile := fun p => p == "/img/a.png" || p == "/doc/b.pdf",
    readBytes := fun _ => [1],
    guessMime := fun p =>
      if p == "/img/a.png" then some "image/png"
      else if p == "/doc/b.pdf" then some "application/pdf"
      else if p == "/missing.png" then some "image/png"
      else none }

/-- An empty filesystem. -/
def fsEmpty : FileSystem :=
  { isFile := fun _ => false, readBytes := fun _ => [], guessMime := fun _ => none }

set_option maxRecDepth 8000

/-! ### Helper lemmas -/

/-- `charListLe` is total. -/
theorem charListLe_total : ∀ as bs : List Char,
    charListLe as bs = true ∨ charListLe bs as = true
  | [], _ => Or.inl rfl
  | _ :: _, [] => Or.inr rfl
  | a :: as, b :: bs => by
      by_cases hab : a = b
      · subst hab
        rcases charListLe_total as bs with h | h
        · exact Or.inl (by simp [charListLe, h])
        · exact Or.inr (by simp [charListLe, h])
      · have hba : ¬ b = a := fun hba => hab hba.symm
        rcases lt_or_gt_of_ne hab with h | h
        · exact Or.inl (by simp [charListLe, hab, h])
        · exact Or.inr (by simp [charListLe, hba, h])

/-- `charListLe` is transitive. -/
theorem charListLe_trans : ∀ as bs cs : List Char,
    charListLe as bs = true → charListLe bs cs = true → charListLe as cs = true
  | [], _, _, _, _ => rfl
  | _ :: _, [], _, h1, _ => by simp [charListLe] at h1
  | _ :: _, _ :: _, [], _, h2 => by simp [charListLe] at h2
  | a :: as, b :: bs, c :: cs, h1, h2 => by
      simp only [charListLe] at h1 h2 ⊢
      by_cases hab : a = b
      · subst hab
        rw [if_pos rfl] at h1
        by_cases hac : a = c
        · subst hac
          rw [if_pos rfl] at h2 ⊢
          exact charListLe_trans as bs cs h1 h2
        · rw [if_neg hac] at h2 ⊢
          exact h2
      · rw [if_neg hab] at h1
        have hlt1 : a < b := of_decide_eq_true h1
        by_cases hbc : b = c
        · subst hbc
          rw [if_neg hab]
          exact h1
        · rw [if_neg hbc] at h2
          have hlt2 : b < c := of_decide_eq_true h2
          have hlt : a < c := lt_trans hlt1 hlt2
          rw [if_neg (ne_of_lt hlt)]
          exact decide_eq_true hlt

/-- A string with a non-empty left part of an append is non-empty. -/
theorem append_ne_empty_left (s t : String) (h : s ≠ "") : s ++ t ≠ "" := by
  intro heq
  apply h
  have hl := congrArg String.length heq
  rw [String.length_append] at hl
  have hz : ("" : String).length = 0 := rfl
  rw [hz] at hl
  have h0 : s.length = 0 := by omega
  cases s with
  | mk data =>
      cases data with
      | nil => rfl
      | cons c cs => simp [String.length] at h0

/-- The identity section is never the empty string. -/
theorem get_identity_ne_empty (cb : ContextBuilder) : _get_identity cb ≠ "" := by
  simp only [_get_identity]
  repeat' apply append_ne_empty_left
  decide

/-- A `filterMap` whose function is a guarded `map` is a `filter` then `map`. -/
theorem filterMap_eq_map_filter_of {α β : Type} (f : α → Option β) (p : α → Bool)
    (g : α → β) (hf : ∀ a, f a = if p a then some (g a) else none) :
    ∀ l : List α, l.filterMap f = (l.filter p).map g
  | [] => by simp
  | a :: l => by
      cases hp : p a <;>
        simp [List.filterMap_cons, List.filter_cons, hf a, hp,
          filterMap_eq_map_filter_of f p g hf l]

/-- The loop body of `_build_user_content` keeps exactly the surviving
paths, and encodes each as its image block. -/
theorem encodePath_eq (fs : FileSystem) (path : String) :
    encodePath fs path = if survives fs path then some (imageBlock fs path) else none := by
  unfold encodePath survives imageBlock
  cases hm : fs.guessMime path with
  | none =>
      have hsw : strStarts "" "image/" = false := rfl
      simp [hm, hsw]
  | some m =>
      cases hf : fs.isFile path <;> cases hsw : strStarts m "image/" <;>
        simp [hm, hf, hsw]

/-- `pyTruthyList` is false exactly on `None` and `[]`. -/
theorem pyTruthyList_false {α : Type} (x : Option (List α)) (h : x.getD [] = []) :
    pyTruthyList x = false := by
  cases x with
  | none => rfl
  | some l =>
      have hl : l = [] := h
      subst hl
      rfl

/-- `pyTruthyList` is true on non-empty lists. -/
theorem pyTruthyList_true {α : Type} (x : Option (List α)) (h : ¬ x.getD [] = []) :
    pyTruthyList x = true := by
  cases x with
  | none => exact absurd rfl h
  | some l =>
      cases l with
      | nil => exact absurd rfl h
      | cons a t => rfl

/-- `pyTruthyStr` is false exactly on `None` and `""`. -/
theorem pyTruthyStr_false (x : Option String) (h : x.getD "" = "") :
    pyTruthyStr x = false := by
  cases x with
  | none => rfl
  | some s =>
      have hs : s = "" := h
      subst hs
      rfl

/-- `pyTruthyStr` is true on non-empty strings. -/
theorem pyTruthyStr_true (x : Option String) (h : ¬ x.getD "" = "") :
    pyTruthyStr x = true := by
  cases x with
  | none => exact absurd rfl h
  | some s =>
      have hs : ¬ s = "" := h
      have hse : s.isEmpty = false := by
        cases hh : s.isEmpty
        · rfl
        · exact absurd ((String.isEmpty_iff s).mp hh) hs
      simp [pyTruthyStr, hse]

/-- Python `content or ""` is `content.getD ""`. -/
theorem pyStrOr_empty (x : Option String) : pyStrOr x "" = x.getD "" := by
  cases x with
  | none => rfl
  | some s =>
      by_cases hs : s = ""
      · subst hs; rfl
      · have ht : pyTruthyStr (some s) = true := pyTruthyStr_true (some s) hs
        simp [pyStrOr, ht]

/-- C2: when at least one media path survives filtering,
`_build_user_content` returns the surviving image blocks first, in input
path order, followed by exactly one trailing text block holding the
original text; every skipped path (no regular file, unguessable MIME type,
or non-`image` primary type) contributes no block and raises no error. -/
theorem c2_media_blocks (fs : FileSystem) (text : String) (paths : List String)
    (h : ∃ p, p ∈ paths ∧ survives fs p = true) :
    _build_user_content fs text (some paths) =
      UserContent.blocks
        (((paths.filter (fun p => survives fs p)).map (imageBlock fs))
          ++ [ContentBlock.text text]) := by
  obtain ⟨p0, hp0, hs0⟩ := h
  have hmap : paths.filterMap (encodePath fs) =
      (paths.filter (fun p => survives fs p)).map (imageBlock fs) :=
    filterMap_eq_map_filter_of _ _ _ (encodePath_eq fs) paths
  have hne : paths.isEmpty = false := by
    cases paths with
    | nil => cases hp0
    | cons a t => rfl
  have hfil : p0 ∈ paths.filter (fun p => survives fs p) :=
    List.mem_filter.mpr ⟨hp0, hs0⟩
  have himg :
      ((paths.filter (fun p => survives fs p)).map (imageBlock fs)).isEmpty = false := by
    cases hq : paths.filter (fun p => survives fs p) with
    | nil => rw [hq] at hfil; cases hfil
    | cons a t => rfl
  simp [_build_user_content, hne, hmap, himg]

/-- C2 witness: a PDF, a guessable-but-missing PNG path, a real PNG and an
unguessable path; only the real PNG is encoded, the text block comes last. -/
theorem c2_media_blocks_witness :
    _build_user_content fsW "caption"
        (some ["/doc/b.pdf", "/missing.png", "/img/a.png", "/nope"]) =
      UserContent.blocks [ContentBlock.image "data:image/png;base64,AQ==",
        ContentBlock.text "caption"] := by
  have h := c2_media_blocks fsW "caption"
    ["/doc/b.pdf", "/missing.png", "/img/a.png", "/nope"]
    ⟨"/img/a.png", by decide, by decide⟩
  rw [h]
  decide

/-- C6: when no media path survives filtering — in particular when the
media argument is `None` or the empty list — `_build_user_content` returns
the original text unchanged as plain text, never a block sequence. -/
theorem c6_media_plain_text (fs : FileSystem) (text : String)
    (media : Option (List String))
    (h : ∀ p ∈ media.getD [], survives fs p = false) :
    _build_user_content fs text media = UserContent.str text := by
  cases media with
  | none => rfl
  | some paths =>
      have hmap : paths.filterMap (encodePath fs) =
          (paths.filter (fun p => survives fs p)).map (imageBlock fs) :=
        filterMap_eq_map_filter_of _ _ _ (encodePath_eq fs) paths
      have hfil : paths.filter (fun p => survives fs p) = [] := by
        apply List.filter_eq_nil_iff.mpr
        intro a ha
        simp [h a ha]
      cases hne : paths.isEmpty
      · simp [_build_user_content, hne, hmap, hfil]
      · simp [_build_user_content, hne]

/-- C6 witness: a PDF, a missing path and an unguessable path produce the
plain text back. -/
theorem c6_media_plain_text_witness :
    _build_user_content fsW "hi" (some ["/doc/b.pdf", "/missing.png", "/nope"]) =
      UserContent.str "hi" :=
  c6_media_plain_text fsW "hi" (some ["/doc/b.pdf", "/missing.png", "/nope"]) (by decide)

/-- C7: `add_assistant_message` appends one `assistant` message whose
`content` key is always present (the empty string when the argument is
`None`), whose `tool_calls` key is present exactly when the argument is a
non-empty list (carried unchanged), and whose `reasoning_content` key is
present exactly when the argument is a non-`None`, non-empty string
(carried unchanged). -/
theorem c7_add_assistant (messages : List Message) (content : Option String)
    (tool_calls : Option (List String)) (reasoning_content : Option String) :
    ∃ m : Message,
      add_assistant_message messages content tool_calls reasoning_content =
          messages ++ [m] ∧
        m.role = "assistant" ∧
        m.content = UserContent.str (content.getD "") ∧
        m.tool_calls = (if tool_calls.getD [] = [] then none else tool_calls) ∧
        m.reasoning_content =
          (if reasoning_content.getD "" = "" then none else reasoning_content) := by
  refine ⟨{ role := "assistant", content := UserContent.str (content.getD ""),
            tool_calls := if tool_calls.getD [] = [] then none else tool_calls,
            reasoning_content :=
              if reasoning_content.getD "" = "" then none else reasoning_content,
            tool_call_id := none, name := none }, ?_, rfl, rfl, rfl, rfl⟩
  unfold add_assistant_message
  by_cases h1 : tool_calls.getD [] = [] <;> by_cases h2 : reasoning_content.getD "" = ""
  · simp [pyTruthyList_false _ h1, pyTruthyStr_false _ h2, pyStrOr_empty, h1, h2]
  · simp [pyTruthyList_false _ h1, pyTruthyStr_true _ h2, pyStrOr_empty, h1, h2]
  · simp [pyTruthyList_true _ h1, pyTruthyStr_false _ h2, pyStrOr_empty, h1, h2]
  · simp [pyTruthyList_true _ h1, pyTruthyStr_true _ h2, pyStrOr_empty, h1, h2]

/-- An `if isEmpty then "" else join` collapses: joining nothing is `""`. -/
theorem if_isEmpty_joinSep (sep : String) (parts : List String) :
    (if parts.isEmpty then "" else joinSep sep parts) = joinSep sep parts := by
  cases parts with
  | nil => rfl
  | cons p rest => rfl

/-- C3: `build_messages` returns the system message first, every history
message next in order and unmodified, and exactly one trailing user message
carrying the media-encoded current message. -/
theorem c3_build_messages_order (cb : ContextBuilder) (fs : FileSystem)
    (history : List Message) (current_message : String)
    (skill_names media : Option (List String)) (channel chat_id : Option String) :
    (build_messages cb fs history current_message skill_names media channel chat_id).length
        = history.length + 2 ∧
    (build_messages cb fs history current_message skill_names media channel chat_id).head?
        = some (systemMessage (sessionPrompt cb skill_names channel chat_id)) ∧
    (∀ i : Fin history.length,
      (build_messages cb fs history current_message skill_names media channel chat_id)[i.val + 1]?
        = history[i.val]?) ∧
    (build_messages cb fs history current_message skill_names media channel chat_id).getLast?
        = some (userMessage (_build_user_content fs current_message media)) := by
  have hb : build_messages cb fs history current_message skill_names media channel chat_id
      = systemMessage (sessionPrompt cb skill_names channel chat_id)
          :: (history ++ [userMessage (_build_user_content fs current_message media)]) := by
    simp [build_messages]
  refine ⟨?_, ?_, ?_, ?_⟩
  · rw [hb]
    simp
  · rw [hb]
    rfl
  · intro i
    rw [hb, List.getElem?_cons_succ]
    exact List.getElem?_append_left i.isLt
  · rw [hb, ← List.cons_append]
    exact List.getLast?_concat _

/-- C4 (amended): the `## Current Session` footer is appended to the system
prompt text exactly when both `channel` and `chat_id` are supplied and
non-empty (Python truthiness); when either is `None` or `""`, the prompt
carries no part of the footer. -/
theorem c4_footer_amended (cb : ContextBuilder) (fs : FileSystem)
    (history : List Message) (current_message : String)
    (skill_names media : Option (List String)) (channel chat_id : Option String) :
    (build_messages cb fs history current_message skill_names media channel chat_id).head?
        = some (systemMessage (sessionPrompt cb skill_names channel chat_id)) ∧
    (sessionPrompt cb skill_names channel chat_id
        = build_system_prompt cb skill_names ++ "\n\n## Current Session\nChannel: "
            ++ channel.getD "" ++ "\nChat ID: " ++ chat_id.getD ""
      ↔ (pyTruthyStr channel && pyTruthyStr chat_id) = true) ∧
    (sessionPrompt cb skill_names channel chat_id = build_system_prompt cb skill_names
      ↔ (pyTruthyStr channel && pyTruthyStr chat_id) = false) := by
  have h30 : ("\n\n## Current Session\nChannel: " : String).length = 30 := by decide
  have h10 : ("\nChat ID: " : String).length = 10 := by decide
  have hfoot : ∀ c i : String,
      build_system_prompt cb skill_names ++ "\n\n## Current Session\nChannel: "
          ++ c ++ "\nChat ID: " ++ i ≠ build_system_prompt cb skill_names := by
    intro c i heq
    have hl := congrArg String.length heq
    simp only [String.length_append, h30, h10] at hl
    omega
  refine ⟨by simp [build_messages], ?_, ?_⟩
  · cases hb : (pyTruthyStr channel && pyTruthyStr chat_id) with
    | false =>
        have hsp : sessionPrompt cb skill_names channel chat_id
            = build_system_prompt cb skill_names := by
          simp [sessionPrompt, hb]
        rw [hsp]
        constructor
        · intro heq
          exact absurd heq.symm (hfoot _ _)
        · intro hh
          exact absurd hh (by decide)
    | true =>
        have hsp : sessionPrompt cb skill_names channel chat_id
            = build_system_prompt cb skill_names ++ "\n\n## Current Session\nChannel: "
                ++ channel.getD "" ++ "\nChat ID: " ++ chat_id.getD "" := by
          simp [sessionPrompt, hb]
        rw [hsp]
        exact ⟨fun _ => rfl, fun _ => rfl⟩
  · cases hb : (pyTruthyStr channel && pyTruthyStr chat_id) with
    | false =>
        have hsp : sessionPrompt cb skill_names channel chat_id
            = build_system_prompt cb skill_names := by
          simp [sessionPrompt, hb]
        rw [hsp]
        exact ⟨fun _ => rfl, fun _ => rfl⟩
    | true =>
        have hsp : sessionPrompt cb skill_names channel chat_id
            = build_system_prompt cb skill_names ++ "\n\n## Current Session\nChannel: "
                ++ channel.getD "" ++ "\nChat ID: " ++ chat_id.getD "" := by
          simp [sessionPrompt, hb]
        rw [hsp]
        constructor
        · intro heq
          exact absurd heq (hfoot _ _)
        · intro hh
          exact absurd hh (by decide)

/-- C4 counterexample: with `channel=""` and `chat_id="42"` both supplied,
no footer is appended — Python `if channel and chat_id` is falsy on the
empty string, refuting "appended iff both arguments are supplied". -/
theorem c4_footer_counterexample :
    (some "" : Option String).isSome = true ∧
    (some "42" : Option String).isSome = true ∧
    (build_messages envProg fsEmpty [] "hello" none none (some "") (some "42")).head?
        = some (systemMessage (build_system_prompt envProg none)) ∧
    strContains (sessionPrompt envProg none (some "") (some "42"))
        "## Current Session" = false := by
  refine ⟨rfl, rfl, rfl, by decide⟩

/-- C8: `_load_bootstrap_files` renders one `## <filename>` section per
existing file out of exactly `AGENTS.md, SOUL.md, USER.md` in that fixed
order; it returns `""` when none exists, and then `build_system_prompt`
omits the bootstrap part entirely. -/
theorem c8_bootstrap (cb : ContextBuilder) (skill_names : Option (List String))
    (h : ∀ fn ∈ BOOTSTRAP_FILES, cb.bootstrap fn = none) :
    _load_bootstrap_files cb = "" ∧
    buildParts cb skill_names
        = [_get_identity cb] ++ memoryParts cb ++ skillsParts cb skill_names ∧
    (∀ e : ContextBuilder, _load_bootstrap_files e
        = joinSep "\n\n"
            ((BOOTSTRAP_FILES.filter (fun fn => (e.bootstrap fn).isSome)).map
              (fun fn => "## " ++ fn ++ "\n\n" ++ ((e.bootstrap fn).getD "")))) := by
  have h1 : cb.bootstrap "AGENTS.md" = none := h _ (by simp [BOOTSTRAP_FILES])
  have h2 : cb.bootstrap "SOUL.md" = none := h _ (by simp [BOOTSTRAP_FILES])
  have h3 : cb.bootstrap "USER.md" = none := h _ (by simp [BOOTSTRAP_FILES])
  have hload : _load_bootstrap_files cb = "" := by
    simp [_load_bootstrap_files, BOOTSTRAP_FILES, h1, h2, h3]
  refine ⟨hload, ?_, ?_⟩
  · have hbp : bootstrapParts cb = [] := by
      rw [bootstrapParts, hload]
      rfl
    simp [buildParts, hbp]
  · intro e
    have hfm : BOOTSTRAP_FILES.filterMap (fun fn => (e.bootstrap fn).map
          (fun content => "## " ++ fn ++ "\n\n" ++ content))
        = (BOOTSTRAP_FILES.filter (fun fn => (e.bootstrap fn).isSome)).map
            (fun fn => "## " ++ fn ++ "\n\n" ++ ((e.bootstrap fn).getD "")) := by
      apply filterMap_eq_map_filter_of
      intro fn
      cases hb : e.bootstrap fn <;> simp [hb]
    simp only [_load_bootstrap_files]
    rw [hfm, if_isEmpty_joinSep]

/-- C8 witness: a workspace with no bootstrap file at all. -/
theorem c8_bootstrap_witness :
    _load_bootstrap_files envProg = "" ∧
    buildParts envProg none
        = [_get_identity envProg] ++ memoryParts envProg ++ skillsParts envProg none := by
  have h := c8_bootstrap envProg none (fun fn _ => rfl)
  exact ⟨h.1, h.2.1⟩

/-- C9: `build_system_prompt` is never empty and always begins with the
identity section; when the bootstrap, memory and skills parts are all
absent, the output is exactly the identity block with no separator. -/
theorem c9_identity_prompt (cb : ContextBuilder) (skill_names : Option (List String))
    (h1 : bootstrapParts cb = []) (h2 : memoryParts cb = [])
    (h3 : skillsParts cb skill_names = []) :
    (∀ e : ContextBuilder, ∀ sns : Option (List String),
      build_system_prompt e sns ≠ "" ∧
      ∃ rest : String, build_system_prompt e sns = _get_identity e ++ rest) ∧
    build_system_prompt cb skill_names = _get_identity cb := by
  constructor
  · intro e sns
    have hparts : buildParts e sns
        = _get_identity e :: (bootstrapParts e ++ memoryParts e ++ skillsParts e sns) := by
      simp [buildParts]
    cases htail : bootstrapParts e ++ memoryParts e ++ skillsParts e sns with
    | nil =>
        have hb : build_system_prompt e sns = _get_identity e := by
          rw [build_system_prompt, hparts, htail]
          rfl
        refine ⟨?_, "", ?_⟩
        · rw [hb]
          exact get_identity_ne_empty e
        · rw [hb, String.append_empty]
    | cons q qs =>
        have hb : build_system_prompt e sns
            = _get_identity e ++ "\n\n---\n\n" ++ joinSep "\n\n---\n\n" (q :: qs) := by
          rw [build_system_prompt, hparts, htail]
          rfl
        refine ⟨?_, "\n\n---\n\n" ++ joinSep "\n\n---\n\n" (q :: qs), ?_⟩
        · rw [hb]
          exact append_ne_empty_left _ _
            (append_ne_empty_left _ _ (get_identity_ne_empty e))
        · rw [hb, String.append_assoc]
  · have hparts2 : buildParts cb skill_names = [_get_identity cb] := by
      simp [buildParts, h1, h2, h3]
    rw [build_system_prompt, hparts2]
    rfl

/-- C9 witness: progressive mode with no bootstrap file, empty memory and
empty skills yields exactly the identity block. -/
theorem c9_identity_prompt_witness :
    build_system_prompt envProg none = _get_identity envProg :=
  (c9_identity_prompt envProg none rfl rfl rfl).2

/-- C10: in compact mode an explicit but empty `skill_names` list does not
suppress the skills section — Python `skill_names or ...` falls back to the
full catalog, so the build equals the no-argument build. -/
theorem c10_empty_skill_names (cb : ContextBuilder) (hmode : cb.no_xml_skills = true) :
    skillsParts cb (some []) = skillsParts cb none ∧
    build_system_prompt cb (some []) = build_system_prompt cb none := by
  have hlist : skillsListOf cb (some []) = skillsListOf cb none := rfl
  have hsp : skillsParts cb (some []) = skillsParts cb none := by
    simp [skillsParts, hmode, compactSkillsParts, compactNames, hlist]
  refine ⟨hsp, ?_⟩
  rw [build_system_prompt, build_system_prompt, buildParts, buildParts, hsp]

/-- C10 witness: the compact fixture builds the same prompt for `some []`
and for `none`. -/
theorem c10_empty_skill_names_witness :
    build_system_prompt envCompact (some []) = build_system_prompt envCompact none :=
  (c10_empty_skill_names envCompact rfl).2

/-- C1 counterexample: on skills `["b-skill","a-skill","a-skill"]` in
compact mode the names line is deduplicated and sorted and two load lines
are produced, but each load line is appended as its own prompt part: the
joined output puts the section separator `---` between the `# Skills` part
and every load line, and the only part starting with `# Skills` contains no
load instruction — the skills content is not one single section. -/
theorem c1_compact_skills_counterexample :
    buildParts envCompact (some ["b-skill", "a-skill", "a-skill"])
        = [_get_identity envCompact,
           "# Skills\n\nAvailable skills: a-skill, b-skill\n",
           "Load details with read_file: /ws/skills/a-skill/SKILL.md\n",
           "Load details with read_file: /ws/skills/b-skill/SKILL.md\n"] ∧
    strContains "# Skills\n\nAvailable skills: a-skill, b-skill\n" "SKILL.md" = false ∧
    build_system_prompt envCompact (some ["b-skill", "a-skill", "a-skill"])
        = _get_identity envCompact
            ++ "\n\n---\n\n# Skills\n\nAvailable skills: a-skill, b-skill\n"
            ++ "\n\n---\n\nLoad details with read_file: /ws/skills/a-skill/SKILL.md\n"
            ++ "\n\n---\n\nLoad details with read_file: /ws/skills/b-skill/SKILL.md\n" := by
  refine ⟨by decide, by decide, by decide⟩

/-- C1 (amended): in compact mode, with the skill names resolved from the
explicit argument (or the catalog when the argument is missing or empty),
deduplicated and sorted lexicographically, a non-empty name list makes
`build_system_prompt` append a `# Skills` part listing all names on one
line, followed by one separate prompt part per unique name — joined to the
prompt with the section separator — instructing how to load its definition
from `<workspace>/skills/<name>/SKILL.md`. -/
theorem c1_compact_skills_amended (cb : ContextBuilder)
    (skill_names : Option (List String)) (hmode : cb.no_xml_skills = true)
    (hne : compactNames cb skill_names ≠ []) :
    skillsParts cb skill_names
        = ("# Skills\n\nAvailable skills: "
              ++ joinSep ", " (compactNames cb skill_names) ++ "\n")
            :: (compactNames cb skill_names).map (fun skill_name =>
              "Load details with read_file: " ++ cb.workspace ++ "/skills/"
                ++ skill_name ++ "/SKILL.md\n") ∧
    List.Sorted strLeRel (compactNames cb skill_names) ∧
    (compactNames cb skill_names).Nodup ∧
    (∀ n, n ∈ compactNames cb skill_names ↔
      n ∈ (skillsListOf cb skill_names).map SkillItem.getName) := by
  have htotal : IsTotal String strLeRel :=
    ⟨fun a b => charListLe_total a.toList b.toList⟩
  have htrans : IsTrans String strLeRel :=
    ⟨fun a b c => charListLe_trans a.toList b.toList c.toList⟩
  have hemp : (compactNames cb skill_names).isEmpty = false := by
    cases hq : compactNames cb skill_names with
    | nil => exact absurd hq hne
    | cons a t => rfl
  refine ⟨?_, ?_, ?_, ?_⟩
  · rw [skillsParts, hmode, if_pos rfl, compactSkillsParts]
    simp only [hemp]
    rfl
  · exact @List.sorted_insertionSort String strLeRel _ htotal htrans _
  · exact (List.perm_insertionSort strLeRel _).symm.nodup
      (List.nodup_dedup ((skillsListOf cb skill_names).map SkillItem.getName))
  · intro n
    rw [compactNames, sortedDedup, List.mem_insertionSort, List.mem_dedup]

/-- C1 witness: the amended shape at the concrete compact fixture and
skills `["b-skill","a-skill","a-skill"]`. -/
theorem c1_compact_skills_witness :
    skillsParts envCompact (some ["b-skill", "a-skill", "a-skill"])
        = ("# Skills\n\nAvailable skills: "
              ++ joinSep ", " (compactNames envCompact (some ["b-skill", "a-skill", "a-skill"]))
              ++ "\n")
            :: (compactNames envCompact (some ["b-skill", "a-skill", "a-skill"])).map
              (fun skill_name =>
                "Load details with read_file: " ++ envCompact.workspace ++ "/skills/"
                  ++ skill_name ++ "/SKILL.md\n") :=
  (c1_compact_skills_amended envCompact (some ["b-skill", "a-skill", "a-skill"])
    rfl (by decide)).1

/-- C5 counterexample: two builder states with identical workspace
filesystem state (`bootstrap`), identical Memory and Skills collaborator
responses, identical configuration — differing only in the clock reading —
produce different bytes, refuting determinism from workspace and
collaborator state alone. -/
theorem c5_determinism_counterexample :
    envProg.workspace = envProg2.workspace ∧
    envProg.no_xml_skills = envProg2.no_xml_skills ∧
    envProg.tz = envProg2.tz ∧
    envProg.system = envProg2.system ∧
    envProg.machine = envProg2.machine ∧
    envProg.pythonVersion = envProg2.pythonVersion ∧
    envProg.memoryContext = envProg2.memoryContext ∧
    envProg.listSkills = envProg2.listSkills ∧
    envProg.alwaysSkills = envProg2.alwaysSkills ∧
    envProg.loadSkillsForContext = envProg2.loadSkillsForContext ∧
    envProg.skillsSummary = envProg2.skillsSummary ∧
    envProg.bootstrap = envProg2.bootstrap ∧
    (build_system_prompt envProg none == build_system_prompt envProg2 none) = false := by
  refine ⟨rfl, rfl, rfl, rfl, rfl, rfl, rfl, rfl, rfl, rfl, rfl, rfl, by decide⟩

/-- C5 (amended): `build_system_prompt` is a deterministic function of the
workspace configuration, the clock/timezone/platform readings, the
collaborator responses, and the bootstrap files of the fixed list: two
builder states agreeing on those (the bootstrap files only at the three
fixed names, the skill renderer only at the always-load list) build
byte-identical prompts. -/
theorem c5_determinism_amended (e1 e2 : ContextBuilder)
    (skill_names : Option (List String))
    (hws : e1.workspace = e2.workspace)
    (hflag : e1.no_xml_skills = e2.no_xml_skills)
    (hnow : e1.now = e2.now)
    (htz : e1.tz = e2.tz)
    (hsys : e1.system = e2.system)
    (hmach : e1.machine = e2.machine)
    (hpy : e1.pythonVersion = e2.pythonVersion)
    (hmem : e1.memoryContext = e2.memoryContext)
    (hlist : e1.listSkills = e2.listSkills)
    (halways : e1.alwaysSkills = e2.alwaysSkills)
    (hload : e1.loadSkillsForContext e1.alwaysSkills
        = e2.loadSkillsForContext e2.alwaysSkills)
    (hsum : e1.skillsSummary = e2.skillsSummary)
    (hboot : ∀ fn ∈ BOOTSTRAP_FILES, e1.bootstrap fn = e2.bootstrap fn) :
    build_system_prompt e1 skill_names = build_system_prompt e2 skill_names := by
  have hb1 : e1.bootstrap "AGENTS.md" = e2.bootstrap "AGENTS.md" :=
    hboot _ (by simp [BOOTSTRAP_FILES])
  have hb2 : e1.bootstrap "SOUL.md" = e2.bootstrap "SOUL.md" :=
    hboot _ (by simp [BOOTSTRAP_FILES])
  have hb3 : e1.bootstrap "USER.md" = e2.bootstrap "USER.md" :=
    hboot _ (by simp [BOOTSTRAP_FILES])
  have hident : _get_identity e1 = _get_identity e2 := by
    rw [_get_identity, _get_identity, hws, hnow, htz, hsys, hmach, hpy]
  have hfm : BOOTSTRAP_FILES.filterMap (fun filename =>
        (e1.bootstrap filename).map (fun content => "## " ++ filename ++ "\n\n" ++ content))
      = BOOTSTRAP_FILES.filterMap (fun filename =>
        (e2.bootstrap filename).map (fun content => "## " ++ filename ++ "\n\n" ++ content)) := by
    simp [BOOTSTRAP_FILES, List.filterMap_cons, hb1, hb2, hb3]
  have hloadb : _load_bootstrap_files e1 = _load_bootstrap_files e2 := by
    simp only [_load_bootstrap_files]
    rw [hfm]
  have hbootp : bootstrapParts e1 = bootstrapParts e2 := by
    rw [bootstrapParts, bootstrapParts, hloadb]
  have hmemp : memoryParts e1 = memoryParts e2 := by
    rw [memoryParts, memoryParts, hmem]
  have hsl : skillsListOf e1 skill_names = skillsListOf e2 skill_names := by
    rw [skillsListOf.eq_def, skillsListOf.eq_def, hlist]
  have hcn : compactNames e1 skill_names = compactNames e2 skill_names := by
    rw [compactNames, compactNames, hsl]
  have hskill : skillsParts e1 skill_names = skillsParts e2 skill_names := by
    rw [skillsParts, skillsParts, hflag]
    rw [compactSkillsParts, compactSkillsParts, hcn, hws]
    rw [progressiveSkillsParts, progressiveSkillsParts, hload, halways, hsum]
  rw [build_system_prompt, build_system_prompt, buildParts, buildParts,
    hident, hbootp, hmemp, hskill]

/-- C5 witness: two syntactically different builder states — one workspace
holds a file outside the bootstrap list — agree on all the listed state and
build the same prompt. -/
theorem c5_determinism_witness :
    build_system_prompt envProg none = build_system_prompt envProgB none :=
  c5_determinism_amended envProg envProgB none rfl rfl rfl rfl rfl rfl rfl rfl
    rfl rfl rfl rfl (by intro fn hfn; fin_cases hfn <;> rfl)
